import Mathlib

/-
Verification of the SOLEM BLIP irrigation controller driver
(src/hacking/solem_bleak.py) against its design specification.

The shallow embedding below translates the pure computational content of the
driver: `struct.pack`-based command framing, the two-phase write-then-commit
sequencer, the notification analyzer, the status decoder used by `getStatus`,
the connect retry loop and the disconnect teardown. BLE transport calls are
modelled by the sequence of characteristic writes they would issue and by
boolean fault-injection flags for operations that may raise.

Bytes are `Nat` values in `0..255`; multi-byte integers are big-endian, as in
the Python `">..."` struct formats.
-/

set_option autoImplicit false

namespace SolemBLIP

/-- `struct.pack(">H", n)`: two big-endian bytes; fails (struct.error) unless
`n ≤ 0xFFFF`. -/
def packBE16 (n : Nat) : Option (List Nat) :=
  if n ≤ 65535 then some [n / 256, n % 256] else none

/-- `struct.pack("B", n)`: one byte; fails (struct.error) unless `n ≤ 0xFF`. -/
def packB (n : Nat) : Option (List Nat) :=
  if n ≤ 255 then some [n] else none

/-- `struct.pack(">HBBBH", a, b, c, d, e)`. -/
def packHBBBH (a b c d e : Nat) : Option (List Nat) :=
  match packBE16 a, packB b, packB c, packB d, packBE16 e with
  | some x1, some x2, some x3, some x4, some x5 => some (x1 ++ x2 ++ x3 ++ x4 ++ x5)
  | _, _, _, _, _ => none

/-- `struct.pack(">HBHH", a, b, c, d)`. -/
def packHBHH (a b c d : Nat) : Option (List Nat) :=
  match packBE16 a, packB b, packBE16 c, packBE16 d with
  | some x1, some x2, some x3, some x4 => some (x1 ++ x2 ++ x3 ++ x4)
  | _, _, _, _ => none

/-- Python exceptions the driver can raise while building a command. -/
inductive PyError where
  | valueError (msg : String)
  | structError
deriving DecidableEq, Repr

/-- `SolemBLIP.startWatering(station, minutes)` up to and including command
construction: validates `minutes < 1`, then packs
`">HBBBH" 0x3105 0x12 station 0x00 (minutes*60)`. -/
def startWatering (station minutes : Nat) : Except PyError (List Nat) :=
  if minutes < 1 then Except.error (PyError.valueError "Minimum irrigation time is 1 minute")
  else
    match packHBBBH 0x3105 0x12 station 0x00 (minutes * 60) with
    | some bs => Except.ok bs
    | none => Except.error PyError.structError

/-- `SolemBLIP.startWateringAll(minutes)` up to and including command
construction: validates `minutes < 1`, then packs
`">HBHH" 0x3105 0x11 0x0000 (minutes*60)`. -/
def startWateringAll (minutes : Nat) : Except PyError (List Nat) :=
  if minutes < 1 then Except.error (PyError.valueError "Minimum irrigation time is 1 minute")
  else
    match packHBHH 0x3105 0x11 0x0000 (minutes * 60) with
    | some bs => Except.ok bs
    | none => Except.error PyError.structError

/-- The constant commit frame `struct.pack(">H", 0x3b00)`. -/
def commit_cmd : List Nat := [0x3b, 0x00]

/-- `SolemBLIP.__writeCommand(cmd)`: raises when disconnected, the client is
gone or no write characteristic is known; otherwise issues exactly the two
characteristic writes `cmd` then `commit_cmd`, in that order. The result is
the ordered list of writes issued. -/
def writeCommand (connected hasClient hasWriteUuid : Bool) (cmd : List Nat) :
    Except String (List (List Nat)) :=
  if ¬ (connected ∧ hasClient) then Except.error "Device not connected"
  else if ¬ hasWriteUuid then Except.error "Write characteristic not found"
  else Except.ok [cmd, commit_cmd]

/-- `startWatering` followed by `__writeCommand` on an established session:
returns the command-construction result together with the ordered list of
characteristic writes issued (empty when construction raised). -/
def startWateringSend (station minutes : Nat) :
    Except PyError (List Nat) × List (List Nat) :=
  match startWatering station minutes with
  | Except.ok cmd => (Except.ok cmd, [cmd, commit_cmd])
  | Except.error e => (Except.error e, [])

end SolemBLIP

namespace SolemBLIP

theorem startWatering_ok (station minutes : Nat) (hs : station ≤ 255)
    (h1 : 1 ≤ minutes) (h2 : minutes * 60 ≤ 65535) :
    startWatering station minutes =
      Except.ok [0x31, 0x05, 0x12, station, 0x00, minutes * 60 / 256, minutes * 60 % 256] := by
  have hm : ¬ minutes < 1 := by omega
  simp [startWatering, packHBBBH, packBE16, packB, hm, hs, h2]

theorem startWateringAll_ok (minutes : Nat)
    (h1 : 1 ≤ minutes) (h2 : minutes * 60 ≤ 65535) :
    startWateringAll minutes =
      Except.ok [0x31, 0x05, 0x11, 0x00, 0x00, minutes * 60 / 256, minutes * 60 % 256] := by
  have hm : ¬ minutes < 1 := by omega
  simp [startWateringAll, packHBHH, packBE16, packB, hm, h2]

/-- Claim C1 counterexample: the single-zone encoder run at zone 1 with the
minimum accepted duration (1 minute = 60 seconds) yields a 7-byte frame, not
the 8 bytes the claim asserts. -/
theorem startWatering_eight_bytes_cex :
    startWatering 1 1 = Except.ok [0x31, 0x05, 0x12, 0x01, 0x00, 0x00, 0x3c] ∧
    ([0x31, 0x05, 0x12, 0x01, 0x00, 0x00, 0x3c] : List Nat).length ≠ 8 :=
  ⟨rfl, by decide⟩

/-- Claim C1 (amended): for every zone index in 1..=3 and every representable
accepted duration (whole minutes, so seconds = minutes*60 ≥ 60, fitting 16
bits), the single-zone encoder produces exactly 7 bytes laid out as opcode
0x3105 (2 bytes), subcode 0x12, the zone index as one byte, a reserved 0x00
byte, and the duration as a 2-byte big-endian integer. -/
theorem startWatering_layout (station minutes : Nat)
    (hz1 : 1 ≤ station) (hz3 : station ≤ 3)
    (h1 : 1 ≤ minutes) (h2 : minutes * 60 ≤ 65535) :
    startWatering station minutes =
      Except.ok [0x31, 0x05, 0x12, station, 0x00, minutes * 60 / 256, minutes * 60 % 256] ∧
    ([0x31, 0x05, 0x12, station, 0x00, minutes * 60 / 256, minutes * 60 % 256] : List Nat).length = 7 ∧
    60 ≤ minutes * 60 :=
  ⟨startWatering_ok station minutes (by omega) h1 h2, rfl, by omega⟩

/-- Claim C1 witness: zone 1, 1 minute. -/
theorem startWatering_layout_witness :
    startWatering 1 1 = Except.ok [0x31, 0x05, 0x12, 1, 0x00, 1 * 60 / 256, 1 * 60 % 256] :=
  (startWatering_layout 1 1 (by decide) (by decide) (by decide) (by decide)).1

/-- Claim C2 counterexample: zone index 4 is outside 1..=3, yet with a valid
duration the command is not rejected: construction succeeds and both the
command write and the commit write are issued. -/
theorem startWatering_zone_cex :
    startWateringSend 4 1 =
      (Except.ok [0x31, 0x05, 0x12, 0x04, 0x00, 0x00, 0x3c],
       [[0x31, 0x05, 0x12, 0x04, 0x00, 0x00, 0x3c], [0x3b, 0x00]]) :=
  rfl

/-- Claim C2 (amended): the single-zone command fails with a ValueError,
before any bytes are encoded or transmitted, whenever the requested duration
is below 60 seconds (minutes < 1); no characteristic write is issued on such
a rejection. The zone index is not validated. -/
theorem startWatering_min_duration (station minutes : Nat) (h : minutes < 1) :
    startWateringSend station minutes =
      (Except.error (PyError.valueError "Minimum irrigation time is 1 minute"), []) := by
  simp [startWateringSend, startWatering, h]

/-- Claim C2 witness: zone 1, 0 minutes. -/
theorem startWatering_min_duration_witness :
    startWateringSend 1 0 =
      (Except.error (PyError.valueError "Minimum irrigation time is 1 minute"), []) :=
  startWatering_min_duration 1 0 (by decide)

/-- Claim C3: on an established session, every logical command sent through
the sequencer issues exactly two characteristic writes, in order: first the
command bytes, then the constant 2-byte commit frame 0x3B00, regardless of
the command. -/
theorem writeCommand_two_writes (cmd : List Nat) :
    writeCommand true true true cmd = Except.ok [cmd, [0x3b, 0x00]] ∧
    ([0x3b, 0x00] : List Nat).length = 2 :=
  ⟨rfl, rfl⟩

/-- Claim C9: the all-zones command at 2 minutes (120 seconds) encodes to
exactly 31 05 11 00 00 00 78, and a duration below 60 seconds (minutes < 1)
is rejected by the same minimum-duration ValueError as the single-zone
command. -/
theorem startWateringAll_120 :
    startWateringAll 2 = Except.ok [0x31, 0x05, 0x11, 0x00, 0x00, 0x00, 0x78] ∧
    ∀ m : Nat, m < 1 →
      startWateringAll m =
        Except.error (PyError.valueError "Minimum irrigation time is 1 minute") := by
  refine ⟨rfl, fun m hm => ?_⟩
  simp [startWateringAll, hm]

/-- Claim C9 witness: 0 minutes is rejected. -/
theorem startWateringAll_120_witness :
    startWateringAll 0 =
      Except.error (PyError.valueError "Minimum irrigation time is 1 minute") :=
  startWateringAll_120.2 0 (by decide)

/-- Claim C10: the watering interface takes whole minutes and encodes the
wire duration as minutes*60, so every accepted command carries a duration
field that is an exact multiple of 60 seconds; there is no upper-bound
validation: for minutes ≤ 1092 the encoders succeed and the 2-byte
big-endian duration field decodes back to minutes*60, while for
minutes > 1092 (duration > 65535) the 16-bit packing step itself fails with
a struct error, not with the ValueError used for invalid arguments. -/
theorem minutes_wire_duration (station minutes : Nat)
    (hs : station ≤ 255) (h1 : 1 ≤ minutes) :
    (minutes ≤ 1092 →
      (∃ bs, startWatering station minutes = Except.ok bs ∧
         256 * bs.getD 5 0 + bs.getD 6 0 = minutes * 60 ∧
         (256 * bs.getD 5 0 + bs.getD 6 0) % 60 = 0) ∧
      (∃ bs, startWateringAll minutes = Except.ok bs ∧
         256 * bs.getD 5 0 + bs.getD 6 0 = minutes * 60 ∧
         (256 * bs.getD 5 0 + bs.getD 6 0) % 60 = 0)) ∧
    (1093 ≤ minutes →
      startWatering station minutes = Except.error PyError.structError ∧
      startWateringAll minutes = Except.error PyError.structError ∧
      PyError.structError ≠
        PyError.valueError "Minimum irrigation time is 1 minute") := by
  constructor
  · intro hub
    have h2 : minutes * 60 ≤ 65535 := by omega
    refine ⟨⟨_, startWatering_ok station minutes hs h1 h2, ?_, ?_⟩,
            ⟨_, startWateringAll_ok minutes h1 h2, ?_, ?_⟩⟩ <;>
      simp [List.getD] <;> omega
  · intro hov
    have hm : ¬ minutes < 1 := by omega
    have h2 : ¬ minutes * 60 ≤ 65535 := by omega
    refine ⟨?_, ?_, by simp⟩
    · simp [startWatering, packHBBBH, packBE16, packB, hm, hs, h2]
    · simp [startWateringAll, packHBHH, packBE16, packB, hm, h2]

/-- Claim C10 witness: zone 1; 1092 minutes still encodes, 1093 minutes hits
the struct error. -/
theorem minutes_wire_duration_witness :
    (∃ bs, startWatering 1 1092 = Except.ok bs ∧
       256 * bs.getD 5 0 + bs.getD 6 0 = 1092 * 60 ∧
       (256 * bs.getD 5 0 + bs.getD 6 0) % 60 = 0) ∧
    startWatering 1 1093 = Except.error PyError.structError :=
  ⟨((minutes_wire_duration 1 1092 (by decide) (by decide)).1 (by decide)).1,
   ((minutes_wire_duration 1 1093 (by decide) (by decide)).2 (by decide)).1⟩

/-- The status record returned by `SolemBLIP.getStatus`. `raw_response`
keeps the captured notification bytes (`data.hex()` in the source). -/
structure DeviceStatus where
  active : Bool
  mode : String
  timer_remaining : Nat
  timer_minutes : Nat
  timer_seconds : Nat
  sub_status_code : Option Nat
  raw_response : Option (List Nat)
deriving DecidableEq, Repr

/-- The indeterminate record `getStatus` returns when no qualifying
notification was captured. -/
def noResponseStatus : DeviceStatus :=
  { active := false, mode := "no_response", timer_remaining := 0,
    timer_minutes := 0, timer_seconds := 0, sub_status_code := none,
    raw_response := none }

/-- One lowercase hex digit, as Python `"%x"` formatting produces. -/
def hexChar (n : Nat) : Char :=
  if n < 10 then Char.ofNat (48 + n) else Char.ofNat (87 + n)

/-- Python `"%02x"` formatting of a byte value. -/
def byteHex (n : Nat) : String :=
  String.mk [hexChar (n / 16 % 16), hexChar (n % 16)]

/-- The parsing tail of `SolemBLIP.getStatus`: given the captured
notification (if any), build the status record. A captured payload shorter
than 18 bytes, or no captured payload at all, yields `noResponseStatus`;
otherwise the sub-status byte is `data[3]`, the remaining timer is the
big-endian 16-bit value at `data[13:15]`, and the mode/active pair follows
the fixed sub-status table. -/
def parseStatus (lastNotif : Option (List Nat)) : DeviceStatus :=
  match lastNotif with
  | some data =>
    if 18 ≤ data.length then
      let sub_status := data.getD 3 0
      let timer_remaining := 256 * data.getD 13 0 + data.getD 14 0
      let modeActive : String × Bool :=
        if sub_status = 0x42 then ("single_station_active", true)
        else if sub_status = 0x41 then ("all_stations_active", true)
        else if sub_status = 0x40 then ("idle", false)
        else if sub_status = 0x02 then ("programmed_off", false)
        else ("unknown_" ++ byteHex sub_status, false)
      { active := modeActive.2, mode := modeActive.1,
        timer_remaining := timer_remaining,
        timer_minutes := timer_remaining / 60,
        timer_seconds := timer_remaining % 60,
        sub_status_code := some sub_status,
        raw_response := some data }
    else noResponseStatus
  | none => noResponseStatus

/-- The temporary `status_handler` installed by `getStatus`: keep the last
notification whose length is at least 18 and whose byte at offset 2 is 0x02
(first packet of a burst). -/
def captureFirstPacket (notifs : List (List Nat)) : Option (List Nat) :=
  notifs.foldl
    (fun acc d => if 18 ≤ d.length ∧ d.getD 2 0 = 0x02 then some d else acc)
    none

/-- `SolemBLIP.getStatus` as a function of the notifications delivered while
the temporary handler was installed. -/
def getStatus (notifs : List (List Nat)) : DeviceStatus :=
  parseStatus (captureFirstPacket notifs)

theorem captureFirstPacket_none (notifs : List (List Nat))
    (h : ∀ d ∈ notifs, ¬ (18 ≤ d.length ∧ d.getD 2 0 = 0x02)) :
    captureFirstPacket notifs = none := by
  have aux : ∀ (l : List (List Nat)) (acc : Option (List Nat)),
      (∀ d ∈ l, ¬ (18 ≤ d.length ∧ d.getD 2 0 = 0x02)) →
      l.foldl
        (fun acc d => if 18 ≤ d.length ∧ d.getD 2 0 = 0x02 then some d else acc)
        acc = acc := by
    intro l
    induction l with
    | nil => intro acc _; rfl
    | cons d rest ih =>
      intro acc hl
      have hd := hl d (List.mem_cons_self d rest)
      simp only [List.foldl_cons, if_neg hd]
      exact ih acc (fun e he => hl e (List.mem_cons_of_mem d he))
  exact aux notifs none h

/-- Claim C4: for every captured first-packet notification (length ≥ 18,
byte 2 equal to 0x02), the status decoder maps the sub-status byte
`data[3]` by the fixed table — 0x42 to single-zone-active/active, 0x41 to
all-zones-active/active, 0x40 to idle/inactive, 0x02 to
programmed-off/inactive, anything else to unknown(code)/inactive — and
always preserves the raw sub-status code in the result. -/
theorem status_decode_table (data : List Nat)
    (hlen : 18 ≤ data.length) (_hfirst : data.getD 2 0 = 0x02) :
    ((parseStatus (some data)).sub_status_code = some (data.getD 3 0)) ∧
    (data.getD 3 0 = 0x42 →
      (parseStatus (some data)).mode = "single_station_active" ∧
      (parseStatus (some data)).active = true) ∧
    (data.getD 3 0 = 0x41 →
      (parseStatus (some data)).mode = "all_stations_active" ∧
      (parseStatus (some data)).active = true) ∧
    (data.getD 3 0 = 0x40 →
      (parseStatus (some data)).mode = "idle" ∧
      (parseStatus (some data)).active = false) ∧
    (data.getD 3 0 = 0x02 →
      (parseStatus (some data)).mode = "programmed_off" ∧
      (parseStatus (some data)).active = false) ∧
    (data.getD 3 0 ≠ 0x42 → data.getD 3 0 ≠ 0x41 → data.getD 3 0 ≠ 0x40 →
      data.getD 3 0 ≠ 0x02 →
      (parseStatus (some data)).mode = "unknown_" ++ byteHex (data.getD 3 0) ∧
      (parseStatus (some data)).active = false) := by
  refine ⟨?_, fun h42 => ?_, fun h41 => ?_, fun h40 => ?_, fun h02 => ?_,
          fun n42 n41 n40 n02 => ?_⟩ <;>
    simp_all [parseStatus, hlen]

/-- Claim C4 witness: an 18-byte first packet with sub-status 0x42. -/
theorem status_decode_table_witness :
    (parseStatus (some [0x32, 0x10, 0x02, 0x42, 0, 0, 0, 0, 0, 0, 0, 0, 0,
      0x00, 0x3c, 0, 0, 0])).mode = "single_station_active" ∧
    (parseStatus (some [0x32, 0x10, 0x02, 0x42, 0, 0, 0, 0, 0, 0, 0, 0, 0,
      0x00, 0x3c, 0, 0, 0])).active = true :=
  (status_decode_table
    [0x32, 0x10, 0x02, 0x42, 0, 0, 0, 0, 0, 0, 0, 0, 0, 0x00, 0x3c, 0, 0, 0]
    (by decide) (by decide)).2.1 (by decide)

/-- Claim C5: the remaining-timer value of a decoded status is the 2-byte
big-endian integer read at offset 13 of the captured payload when the
payload is at least 18 bytes long, and 0 otherwise: a shorter captured
payload decodes to the indeterminate no-response record, as does the absence
of any qualifying first-packet notification, and that record carries a zero
timer. -/
theorem timer_remaining_decode :
    (∀ data : List Nat, 18 ≤ data.length →
      (parseStatus (some data)).timer_remaining =
        256 * data.getD 13 0 + data.getD 14 0) ∧
    (∀ data : List Nat, data.length < 18 →
      parseStatus (some data) = noResponseStatus) ∧
    (∀ notifs : List (List Nat),
      (∀ d ∈ notifs, ¬ (18 ≤ d.length ∧ d.getD 2 0 = 0x02)) →
      getStatus notifs = noResponseStatus) ∧
    noResponseStatus.timer_remaining = 0 := by
  refine ⟨fun data h => ?_, fun data h => ?_, fun notifs h => ?_, rfl⟩
  · simp only [parseStatus, if_pos h]
  · simp only [parseStatus, if_neg (by omega : ¬ 18 ≤ data.length)]
  · unfold getStatus
    rw [captureFirstPacket_none notifs h]
    rfl

/-- Claim C5 witness: an 18-byte payload with timer bytes 0x00 0x3c at
offsets 13–14; a 3-byte payload; a notification list with no qualifying
first packet. -/
theorem timer_remaining_decode_witness :
    (parseStatus (some [0x32, 0x10, 0x02, 0x42, 0, 0, 0, 0, 0, 0, 0, 0, 0,
      0x00, 0x3c, 0, 0, 0])).timer_remaining = 256 * 0x00 + 0x3c ∧
    parseStatus (some [0x32, 0x10, 0x02]) = noResponseStatus ∧
    getStatus [[0x32, 0x10, 0x01, 0x42]] = noResponseStatus :=
  ⟨timer_remaining_decode.1
      [0x32, 0x10, 0x02, 0x42, 0, 0, 0, 0, 0, 0, 0, 0, 0, 0x00, 0x3c, 0, 0, 0]
      (by decide),
   timer_remaining_decode.2.1 [0x32, 0x10, 0x02] (by decide),
   timer_remaining_decode.2.2.1 [[0x32, 0x10, 0x01, 0x42]] (by decide)⟩

/-- Result of `SolemBLIP._analyze_notification`: a short-notification report
for buffers under 4 bytes, otherwise the decoded header fields. -/
inductive NotifAnalysis where
  | shortNotification (len : Nat)
  | report (pfx status_byte sub_status totalLen : Nat)
deriving DecidableEq, Repr

/-- `SolemBLIP._analyze_notification(data)`: buffers shorter than 4 bytes
exit early as a short notification; otherwise the big-endian prefix is
unpacked from bytes 0..1 and the status area from bytes 2..3, with status
byte `(area >> 8) & 0xFF` and sub-status `area & 0xFF`. -/
def analyzeNotification (data : List Nat) : NotifAnalysis :=
  if data.length < 4 then NotifAnalysis.shortNotification data.length
  else
    let pfx := 256 * data.getD 0 0 + data.getD 1 0
    let status_area := 256 * data.getD 2 0 + data.getD 3 0
    NotifAnalysis.report pfx (status_area / 256 % 256) (status_area % 256)
      data.length

/-- The multi-byte reads `_analyze_notification(data)` performs, as
half-open index ranges `(start, stop)` into `data`: nothing for short
buffers; otherwise the prefix unpack `data[0:2]` and the status unpack
`data[2:4]`; when the length is at least 16, the timer-area slice
`data[12:16]` plus, for each loop index `i` in `range(len(data) - 1)` with
`i + 1 < len(data)`, the big-endian and little-endian probe unpacks
`data[i:i+2]`; and when the length is at least 8, the station-area slice
`data[6:8]`. -/
def analyzeReads (data : List Nat) : List (Nat × Nat) :=
  if data.length < 4 then []
  else
    [(0, 2), (2, 4)]
    ++ (if 16 ≤ data.length then
          (12, 16) ::
            ((List.range (data.length - 1)).filterMap
               (fun i => if i + 1 < data.length then some (i, i + 2) else none)
             ++ (List.range (data.length - 1)).filterMap
               (fun i => if i + 1 < data.length then some (i, i + 2) else none))
        else [])
    ++ (if 8 ≤ data.length then [(6, 8)] else [])

theorem probe_reads_bounded (data : List Nat) (p : Nat × Nat)
    (hp : p ∈ (List.range (data.length - 1)).filterMap
      (fun i => if i + 1 < data.length then some (i, i + 2) else none)) :
    p.1 < p.2 ∧ p.2 ≤ data.length := by
  rcases List.mem_filterMap.mp hp with ⟨i, hi, hf⟩
  rw [List.mem_range] at hi
  by_cases hlt : i + 1 < data.length
  · rw [if_pos hlt] at hf
    cases hf
    exact ⟨by simp, by simp; omega⟩
  · rw [if_neg hlt] at hf
    exact absurd hf (by simp)

/-- Claim C6: on every buffer shorter than 4 bytes the notification analyzer
returns the short-notification (malformed) result and performs no multi-byte
read at all; and on a buffer of any length, every multi-byte read it
performs lies entirely within the buffer bounds. -/
theorem analyze_no_oob (data : List Nat) :
    (data.length < 4 →
      analyzeNotification data = NotifAnalysis.shortNotification data.length ∧
      analyzeReads data = []) ∧
    (∀ s e : Nat, (s, e) ∈ analyzeReads data → s < e ∧ e ≤ data.length) := by
  constructor
  · intro h
    exact ⟨by simp [analyzeNotification, h], by simp [analyzeReads, h]⟩
  · intro s e hmem
    by_cases h4 : data.length < 4
    · simp [analyzeReads, h4] at hmem
    · unfold analyzeReads at hmem
      rw [if_neg h4] at hmem
      rcases List.mem_append.mp hmem with hm | hm
      · rcases List.mem_append.mp hm with hm2 | hm2
        · simp only [List.mem_cons, List.not_mem_nil, or_false,
            Prod.mk.injEq] at hm2
          rcases hm2 with ⟨rfl, rfl⟩ | ⟨rfl, rfl⟩ <;> omega
        · by_cases h16 : 16 ≤ data.length
          · rw [if_pos h16] at hm2
            rcases List.mem_cons.mp hm2 with hm3 | hm3
            · simp only [Prod.mk.injEq] at hm3
              rcases hm3 with ⟨rfl, rfl⟩
              omega
            · rcases List.mem_append.mp hm3 with hm4 | hm4 <;>
                exact probe_reads_bounded data (s, e) hm4
          · rw [if_neg h16] at hm2
            exact absurd hm2 (List.not_mem_nil _)
      · by_cases h8 : 8 ≤ data.length
        · rw [if_pos h8] at hm
          simp only [List.mem_cons, List.not_mem_nil, or_false,
            Prod.mk.injEq] at hm
          rcases hm with ⟨rfl, rfl⟩
          omega
        · rw [if_neg h8] at hm
          exact absurd hm (List.not_mem_nil _)

/-- Claim C6 witness: a 3-byte buffer is reported short with no reads; and
the reads on a 16-byte buffer exist and are in bounds (checked on one). -/
theorem analyze_no_oob_witness :
    (analyzeNotification [0x32, 0x10, 0x02] =
       NotifAnalysis.shortNotification 3 ∧
     analyzeReads [0x32, 0x10, 0x02] = []) ∧
    (12, 16).1 < (12, 16).2 ∧ (12, 16).2 ≤
      ([0x32, 0x10, 0x02, 0x42, 0, 0, 0, 0, 0, 0, 0, 0, 0, 0, 0, 0x3c] :
        List Nat).length :=
  ⟨(analyze_no_oob [0x32, 0x10, 0x02]).1 (by decide),
   (analyze_no_oob
      [0x32, 0x10, 0x02, 0x42, 0, 0, 0, 0, 0, 0, 0, 0, 0, 0, 0, 0x3c]).2
      12 16 (by decide)⟩

/-- Observable outcome of a `SolemBLIP.connect` run: the final connection
flag, the attempts figure carried by the raised exception (if one was
raised), the number of connection attempts made, and the number of backoff
sleeps performed. -/
structure ConnectRun where
  connected : Bool
  raisedAfter : Option Nat
  attemptsMade : Nat
  sleeps : Nat
deriving DecidableEq, Repr

/-- The body of the `for attempt in range(retries)` loop of
`SolemBLIP.connect`, run from loop index `attempt` with `fuel` iterations
left (`fuel = retries - attempt` along every real execution). The BLE link
is abstracted as `link : Nat → Bool`, giving the success of each attempt.
A successful attempt breaks out with the connection flag set; a failed
attempt sleeps and continues when `attempt < retries - 1`, and otherwise
raises carrying the `retries` figure. Exhausting the range without running
an iteration (only possible when `retries = 0`) falls through with the
connection flag still cleared. -/
def connectGo (link : Nat → Bool) (retries : Nat) : Nat → Nat → ConnectRun
  | attempt, 0 =>
    { connected := false, raisedAfter := none, attemptsMade := attempt,
      sleeps := attempt }
  | attempt, Nat.succ f =>
    if link attempt then
      { connected := true, raisedAfter := none, attemptsMade := attempt + 1,
        sleeps := attempt }
    else if attempt < retries - 1 then
      connectGo link retries (attempt + 1) f
    else
      { connected := false, raisedAfter := some retries,
        attemptsMade := attempt + 1, sleeps := attempt }

/-- `SolemBLIP.connect(retries)` against the abstract link: clears the
connection flag, then runs the retry loop from attempt 0. -/
def connect (link : Nat → Bool) (retries : Nat) : ConnectRun :=
  connectGo link retries 0 retries

theorem connectGo_success (link : Nat → Bool) (retries : Nat) :
    ∀ k a : Nat, a + k + 1 ≤ retries →
      (∀ i, a ≤ i → i < a + k → link i = false) → link (a + k) = true →
      connectGo link retries a (retries - a) =
        { connected := true, raisedAfter := none, attemptsMade := a + k + 1,
          sleeps := a + k } := by
  intro k
  induction k with
  | zero =>
    intro a hle _ hsucc
    obtain ⟨f, hf⟩ : ∃ f, retries - a = f + 1 := ⟨retries - a - 1, by omega⟩
    rw [hf]
    rw [Nat.add_zero] at hsucc
    simp only [connectGo]
    rw [if_pos hsucc]
    simp
  | succ k ih =>
    intro a hle hfail hsucc
    obtain ⟨f, hf⟩ : ∃ f, retries - a = f + 1 := ⟨retries - a - 1, by omega⟩
    rw [hf]
    have hfa : link a = false := hfail a (Nat.le_refl a) (by omega)
    simp only [connectGo]
    rw [if_neg (by simp [hfa]), if_pos (show a < retries - 1 by omega)]
    have hrew : f = retries - (a + 1) := by omega
    rw [hrew]
    have hres := ih (a + 1) (by omega)
      (fun i h1 h2 => hfail i (by omega) (by omega))
      (by
        have h3 : a + 1 + k = a + (k + 1) := by omega
        rw [h3]
        exact hsucc)
    rw [hres]
    have e1 : a + 1 + k + 1 = a + (k + 1) + 1 := by omega
    have e2 : a + 1 + k = a + (k + 1) := by omega
    rw [e1, e2]

theorem connectGo_fail (retries : Nat) :
    ∀ f a : Nat, 0 < f → a + f = retries →
      connectGo (fun _ => false) retries a f =
        { connected := false, raisedAfter := some retries,
          attemptsMade := retries, sleeps := retries - 1 } := by
  intro f
  induction f with
  | zero =>
    intro a h0 _
    exact absurd h0 (by omega)
  | succ f ih =>
    intro a _ hsum
    simp only [connectGo]
    rw [if_neg (by simp)]
    by_cases hlt : a < retries - 1
    · rw [if_pos hlt]
      exact ih (a + 1) (by omega) (by omega)
    · rw [if_neg hlt]
      have h1 : a + 1 = retries := by omega
      have ha : a = retries - 1 := by omega
      rw [h1, ha]

/-- Claim C7: against a link that fails its first N−1 attempts and succeeds
on the Nth, with 1 ≤ N ≤ max_attempts, connect terminates successfully with
the connection flag set after exactly N attempts and N−1 backoff sleeps and
raises nothing; against a link that always fails (and at least one attempt
allowed), connect makes exactly max_attempts attempts, sleeps between
consecutive failures (max_attempts − 1 sleeps), raises the
connection-failure exception carrying max_attempts, and leaves the
connection flag cleared. -/
theorem connect_retry_behavior :
    (∀ (link : Nat → Bool) (retries N : Nat), 1 ≤ N → N ≤ retries →
      (∀ i, i < N - 1 → link i = false) → link (N - 1) = true →
      connect link retries =
        { connected := true, raisedAfter := none, attemptsMade := N,
          sleeps := N - 1 }) ∧
    (∀ retries : Nat, 1 ≤ retries →
      connect (fun _ => false) retries =
        { connected := false, raisedAfter := some retries,
          attemptsMade := retries, sleeps := retries - 1 }) := by
  constructor
  · intro link retries N h1 h2 hfail hsucc
    have hrun := connectGo_success link retries (N - 1) 0 (by omega)
      (fun i _ hi => hfail i (by omega)) (by simpa using hsucc)
    unfold connect
    rw [Nat.sub_zero] at hrun
    simp only [Nat.zero_add] at hrun
    rw [hrun]
    have e1 : N - 1 + 1 = N := by omega
    rw [e1]
  · intro retries h
    unfold connect
    exact connectGo_fail retries retries 0 (by omega) (by omega)

/-- Claim C7 witness: a link failing attempt 0 and succeeding on attempt 1
connects within 3 allowed attempts; an always-failing link with 2 allowed
attempts raises after both fail. -/
theorem connect_retry_behavior_witness :
    connect (fun i => decide (i = 1)) 3 =
      { connected := true, raisedAfter := none, attemptsMade := 2,
        sleeps := 1 } ∧
    connect (fun _ => false) 2 =
      { connected := false, raisedAfter := some 2, attemptsMade := 2,
        sleeps := 1 } :=
  ⟨connect_retry_behavior.1 (fun i => decide (i = 1)) 3 2 (by decide)
      (by decide)
      (fun i hi => by
        have h0 : i = 0 := by omega
        subst h0
        decide)
      (by decide),
   connect_retry_behavior.2 2 (by decide)⟩

/-- The session fields of a `SolemBLIP` instance that `disconnect` touches. -/
structure Session where
  connected : Bool
  hasClient : Bool
  notificationsEnabled : Bool
deriving DecidableEq, Repr

/-- Observable outcome of a `SolemBLIP.disconnect` run. -/
structure DisconnectRun where
  finalState : Session
  raisedToCaller : Bool
  swallowedError : Bool
deriving DecidableEq, Repr

/-- `SolemBLIP.disconnect()`: when connected with a live client, it tries to
unsubscribe notifications (when enabled) and tear down the BLE link, catching
and swallowing any exception those raise (`stopNotifyFails`,
`linkTeardownFails` inject such failures; a stop-notify failure aborts the
try block before the link teardown); in every case it then clears the
connection flag and releases the client handle, raising nothing to the
caller. -/
def disconnect (s : Session) (stopNotifyFails linkTeardownFails : Bool) :
    DisconnectRun :=
  if s.connected ∧ s.hasClient then
    if s.notificationsEnabled then
      if stopNotifyFails then
        { finalState := { s with connected := false, hasClient := false },
          raisedToCaller := false, swallowedError := true }
      else
        { finalState :=
            { s with
              notificationsEnabled := false,
              connected := false,
              hasClient := false },
          raisedToCaller := false, swallowedError := linkTeardownFails }
    else
      { finalState := { s with connected := false, hasClient := false },
        raisedToCaller := false, swallowedError := linkTeardownFails }
  else
    { finalState := { s with connected := false, hasClient := false },
      raisedToCaller := false, swallowedError := false }

/-- Claim C8: from any session state, and whether or not unsubscribing
notifications or tearing down the BLE link raises, disconnect raises nothing
to the caller and leaves the session disconnected: connection flag cleared
and client handle released. -/
theorem disconnect_always_disconnects (s : Session) (f1 f2 : Bool) :
    (disconnect s f1 f2).raisedToCaller = false ∧
    (disconnect s f1 f2).finalState.connected = false ∧
    (disconnect s f1 f2).finalState.hasClient = false := by
  unfold disconnect
  split_ifs <;> exact ⟨rfl, rfl, rfl⟩

end SolemBLIP
